import Mathlib

/-!
Verification of the FreelanceEscrow contract (src/contracts/freelance_escrow.py)
against its specification.

The contract is a single-job escrow state machine with statuses
"open", "in_progress", "submitted", "completed", "refunded".  Public write
operations assert their preconditions first (Python `assert`) and then mutate
the contract fields; `gl.transfer` moves the escrowed amount.  External
effects (clock, transfer gateway, web fetch, LLM judge) are passed in
explicitly as parameters of the embedded operations.

Machine integers (`u256`) are modelled as `Nat`; no claim depends on
256-bit wrap-around.  `Address` is modelled as `String`, with the empty
string as the "unset" sentinel (`Address("")` in the source).
Python string helpers are modelled on the character list of the string:
`s.upper()` as an ASCII character map, `needle in hay` as sublist
containment, `s[:n]` as a character-count prefix.
-/

abbrev Address := String

/-- Embeds Python `s.upper()` (ASCII case mapping on the character list). -/
def pyUpper (s : String) : String := ⟨s.data.map Char.toUpper⟩

/-- Helper for substring containment on character lists. -/
def isSubList (needle : List Char) : List Char → Bool
  | [] => needle.isEmpty
  | c :: rest => needle.isPrefixOf (c :: rest) || isSubList needle rest

/-- Embeds Python `needle in hay` for strings (substring containment). -/
def pyContains (hay needle : String) : Bool := isSubList needle.data hay.data

/-- Embeds Python `s[:n]` (prefix of at most n characters). -/
def pyTake (s : String) (n : Nat) : String := ⟨s.data.take n⟩

/-- The persistent state of one FreelanceEscrow contract instance
(the state variables declared at lines 35-49 of the source). -/
structure Job where
  client : Address
  freelancer : Address
  job_title : String
  requirements : String
  payment_amount : Nat
  submission_url : String
  status : String
  created_at : Nat
  deadline : Nat
  evaluation_result : String
deriving Repr, DecidableEq

/-- Result of one raw execution of a public write method, in Python statement
order: `job` is the state at exit (as mutated up to a raised exception, if
any), `transfers` the successful `gl.transfer` calls made, `result` the
return value or the message of the raised assertion or transfer error. -/
structure TxResult (α : Type) where
  job : Job
  transfers : List (Address × Nat)
  result : Except String α

/-- Helper: raw outcome of a failed `assert` before any mutation. -/
def precondFail {α : Type} (j : Job) (msg : String) : TxResult α :=
  { job := j, transfers := [], result := .error msg }

/-- Embeds the constructor `__init__` (lines 55-95): validates the inputs and
returns the initial Job, or the message of the failed assertion. -/
def initJob (sender : Address) (value : Nat) (timestamp : Nat)
    (job_title : String) (requirements : String) (deadline_hours : Nat) :
    Except String Job :=
  if job_title.length > 0 then
    if requirements.length > 0 then
      if deadline_hours > 0 then
        if value > 0 then
          .ok { client := sender
                freelancer := ""
                job_title := job_title
                requirements := requirements
                payment_amount := value
                submission_url := ""
                status := "open"
                created_at := timestamp
                deadline := timestamp + deadline_hours * 3600
                evaluation_result := "" }
        else .error "Must include payment"
      else .error "Deadline must be in the future"
    else .error "Requirements required"
  else .error "Job title required"

/-- Embeds `accept_job` (lines 101-115). -/
def accept_job (sender : Address) (j : Job) : TxResult Unit :=
  if j.status = "open" then
    if sender ≠ j.client then
      { job := { j with freelancer := sender, status := "in_progress" }
        transfers := []
        result := .ok () }
    else precondFail j "Client cannot accept own job"
  else precondFail j "Job not available"

/-- Embeds `submit_work` (lines 117-137). -/
def submit_work (sender : Address) (url : String) (j : Job) : TxResult Unit :=
  if j.status = "in_progress" then
    if sender = j.freelancer then
      if url.length > 0 then
        { job := { j with submission_url := url, status := "submitted" }
          transfers := []
          result := .ok () }
      else precondFail j "URL cannot be empty"
    else precondFail j "Only assigned freelancer can submit"
  else precondFail j "Job not in progress"

/-- Embeds `cancel_job` (lines 280-291).  `transferOk` tells whether a given
`gl.transfer` call succeeds; on failure the raised `TransferError` aborts the
method before `self.status` is assigned. -/
def cancel_job (transferOk : Address → Nat → Bool) (sender : Address)
    (j : Job) : TxResult Unit :=
  if j.status = "open" then
    if sender = j.client then
      if transferOk j.client j.payment_amount then
        { job := { j with status := "refunded" }
          transfers := [(j.client, j.payment_amount)]
          result := .ok () }
      else { job := j, transfers := [], result := .error "TransferError" }
    else precondFail j "Only client can cancel"
  else precondFail j "Can only cancel open jobs"

/-- Embeds `claim_deadline_refund` (lines 293-305); `timestamp` is
`gl.block.timestamp`.  The asserts run in source order: deadline, then
status, then actor. -/
def claim_deadline_refund (transferOk : Address → Nat → Bool)
    (sender : Address) (timestamp : Nat) (j : Job) : TxResult Unit :=
  if timestamp > j.deadline then
    if j.status = "open" ∨ j.status = "in_progress" then
      if sender = j.client then
        if transferOk j.client j.payment_amount then
          { job := { j with status := "refunded" }
            transfers := [(j.client, j.payment_amount)]
            result := .ok () }
        else { job := j, transfers := [], result := .error "TransferError" }
      else precondFail j "Only client can claim deadline refund"
    else precondFail j "Invalid status for deadline refund"
  else precondFail j "Deadline not yet passed"

/-- Embeds `withdraw_as_freelancer` (lines 307-319). -/
def withdraw_as_freelancer (sender : Address) (j : Job) : TxResult Unit :=
  if j.status = "in_progress" then
    if sender = j.freelancer then
      { job := { j with freelancer := "", status := "open" }
        transfers := []
        result := .ok () }
    else precondFail j "Only assigned freelancer can withdraw"
  else precondFail j "Can only withdraw from in-progress jobs"

/-- Embeds the prompt built at lines 191-232 (f-string, with the content
preview capped at the first 4000 characters). -/
def evaluation_prompt (j : Job) (submission_content : String) : String :=
  let title := j.job_title
  let reqs := j.requirements
  let url := j.submission_url
  let preview := pyTake submission_content 4000
  s!"You are an impartial evaluator for a freelance job submission.\n\n## JOB DETAILS\n\n**Title:** {title}\n\n**Requirements:**\n{reqs}\n\n## SUBMISSION\n\n**URL:** {url}\n\n**Content Preview:**\n{preview}\n\n## YOUR TASK\n\nEvaluate whether this submission meets the stated requirements.\n\nConsider:\n1. Does it address ALL stated requirements?\n2. Is the implementation functional and reasonable?\n3. Are there critical missing pieces that would make it unusable?\n\nBe fair but strict. The freelancer was paid to deliver what was asked.\n\n## REQUIRED RESPONSE FORMAT\n\nYou MUST respond in exactly this format:\n\nVERDICT: [APPROVED or REJECTED]\nCONFIDENCE: [HIGH, MEDIUM, or LOW]\nSUMMARY: [One sentence summary of your decision]\nDETAILS: [2-3 sentences explaining your reasoning]\n\nExample:\nVERDICT: APPROVED\nCONFIDENCE: HIGH\nSUMMARY: The submission meets all stated requirements.\nDETAILS: The code includes user authentication, analytics charts, and responsive design as requested. Dark mode is implemented via a toggle in the header. Code quality is acceptable.\n"

/-- Embeds the verdict parsing of `evaluate_and_release`, lines 247-253:
default "REJECTED", overridden by the first matching branch on the
uppercased response. -/
def extract_verdict (ai_response : String) : String :=
  let verdict := "REJECTED"
  let response_upper := pyUpper ai_response
  if pyContains response_upper "VERDICT: APPROVED" ||
      pyContains response_upper "VERDICT:APPROVED" then
    "APPROVED"
  else if pyContains response_upper "VERDICT: REJECTED" ||
      pyContains response_upper "VERDICT:REJECTED" then
    "REJECTED"
  else
    verdict

/-- The dict returned by `evaluate_and_release`: either
`\x7b"verdict", "reason"\x7d` (fetch-failure path, line 184) or
`\x7b"verdict", "evaluation"\x7d` (judged path, lines 271-274). -/
structure EvalReturnDict where
  verdict : String
  reason : Option String
  evaluation : Option String
deriving Repr, DecidableEq

/-- Raw execution result of `evaluate_and_release`; `judgeCalls` records the
prompts sent to `gl.call_llm`. -/
structure EvalResult where
  job : Job
  transfers : List (Address × Nat)
  judgeCalls : List String
  result : Except String EvalReturnDict

/-- Embeds `evaluate_and_release` (lines 150-274) in Python statement order.
`fetchResult` is the outcome of `gl.get_webpage(self.submission_url)` (the
error case carries `str(e)`); `judge` is `gl.call_llm`; `transferOk` tells
whether a `gl.transfer` call succeeds.  Note that `self.evaluation_result`
is assigned before the transfer in both the fetch-failure branch (lines
181-183) and the judged branches (lines 256-269), so on a transfer failure
the raw exit state carries the new evaluation text. -/
def evaluate_and_release (transferOk : Address → Nat → Bool)
    (fetchResult : Except String String) (judge : String → String)
    (j : Job) : EvalResult :=
  if j.status = "submitted" then
    match fetchResult with
    | .error e =>
      let j1 := { j with evaluation_result :=
        "REJECTED: Could not access submission URL. Error: " ++ e }
      if transferOk j.client j.payment_amount then
        { job := { j1 with status := "refunded" }
          transfers := [(j.client, j.payment_amount)]
          judgeCalls := []
          result := .ok { verdict := "REJECTED"
                          reason := some "URL inaccessible"
                          evaluation := none } }
      else
        { job := j1, transfers := [], judgeCalls := []
          result := .error "TransferError" }
    | .ok submission_content =>
      let prompt := evaluation_prompt j submission_content
      let ai_response := judge prompt
      let verdict := extract_verdict ai_response
      let j1 := { j with evaluation_result := ai_response }
      if verdict = "APPROVED" then
        if transferOk j.freelancer j.payment_amount then
          { job := { j1 with status := "completed" }
            transfers := [(j.freelancer, j.payment_amount)]
            judgeCalls := [prompt]
            result := .ok { verdict := verdict
                            reason := none
                            evaluation := some ai_response } }
        else
          { job := j1, transfers := [], judgeCalls := [prompt]
            result := .error "TransferError" }
      else
        if transferOk j.client j.payment_amount then
          { job := { j1 with status := "refunded" }
            transfers := [(j.client, j.payment_amount)]
            judgeCalls := [prompt]
            result := .ok { verdict := verdict
                            reason := none
                            evaluation := some ai_response } }
        else
          { job := j1, transfers := [], judgeCalls := [prompt]
            result := .error "TransferError" }
  else
    { job := j, transfers := [], judgeCalls := []
      result := .error "No submission to evaluate" }

/-- Embeds the verdict-equivalence rule declared by the
`gl.equivalence_principle` decorator at lines 144-149 (two evaluations are
equivalent iff they reach the same final APPROVED/REJECTED verdict), using
the same marker extraction as `evaluate_and_release`; a judgment without an
extractable marker normalizes to "REJECTED" inside `extract_verdict`. -/
def equivalence_principle (a b : String) : Bool :=
  extract_verdict a == extract_verdict b

/-- Embeds the view `get_status` (lines 341-344). -/
def get_status (j : Job) : String := j.status

/-- Embeds the view `get_evaluation` (lines 346-349). -/
def get_evaluation (j : Job) : String := j.evaluation_result

/-- Embeds the view `is_deadline_passed` (lines 351-354):
`gl.block.timestamp > self.deadline`. -/
def is_deadline_passed (timestamp : Nat) (j : Job) : Bool :=
  decide (timestamp > j.deadline)

/-- Embeds the view `time_remaining` (lines 356-361). -/
def time_remaining (timestamp : Nat) (j : Job) : Nat :=
  if timestamp ≥ j.deadline then 0 else j.deadline - timestamp

/-- External world of one call: clock, transfer gateway, fetch outcome and
LLM judge, each supplied by the hosting environment. -/
structure Env where
  timestamp : Nat
  transferOk : Address → Nat → Bool
  fetchResult : Except String String
  judge : String → String

/-- One invocation of a public write method, with its caller. -/
inductive Call
  | acceptJob (sender : Address)
  | submitWork (sender : Address) (url : String)
  | withdrawAsFreelancer (sender : Address)
  | cancelJob (sender : Address)
  | claimDeadlineRefund (sender : Address)
  | evaluateAndRelease

/-- Uniform view of one raw method execution: exit state, successful
transfers, and whether the method returned normally. -/
structure StepOut where
  job : Job
  transfers : List (Address × Nat)
  ok : Bool
deriving Repr

def exceptOk {ε α : Type} : Except ε α → Bool
  | .ok _ => true
  | .error _ => false

def toStepOut {α : Type} (r : TxResult α) : StepOut :=
  { job := r.job, transfers := r.transfers, ok := exceptOk r.result }

/-- Raw (uncommitted) execution of one public write call. -/
def rawCall (env : Env) (c : Call) (j : Job) : StepOut :=
  match c with
  | .acceptJob s => toStepOut (accept_job s j)
  | .submitWork s url => toStepOut (submit_work s url j)
  | .withdrawAsFreelancer s => toStepOut (withdraw_as_freelancer s j)
  | .cancelJob s => toStepOut (cancel_job env.transferOk s j)
  | .claimDeadlineRefund s =>
      toStepOut (claim_deadline_refund env.transferOk s env.timestamp j)
  | .evaluateAndRelease =>
      let r := evaluate_and_release env.transferOk env.fetchResult env.judge j
      { job := r.job, transfers := r.transfers, ok := exceptOk r.result }

/-- Modelled from the spec: the GenLayer host executes each public write
method as one transaction — a raised assertion or `TransferError` reverts
every state mutation and transfer of the call (spec section 5 serialization
and section 7 "if disbursement fails, status must not change").  The host
runtime itself is not part of this repository. -/
def stepCall (env : Env) (c : Call) (j : Job) : StepOut :=
  let r := rawCall env c j
  if r.ok then r else { job := j, transfers := [], ok := false }

/-- Committed execution of a sequence of calls, counting the number of
disbursement-gateway invocations that actually moved funds. -/
def runTrace : Job → List (Env × Call) → Job × Nat
  | j, [] => (j, 0)
  | j, ec :: rest =>
      let s := stepCall ec.1 ec.2 j
      let t := runTrace s.job rest
      (t.1, s.transfers.length + t.2)

/-- Terminal statuses of the lifecycle. -/
def IsTerminal (j : Job) : Prop :=
  j.status = "completed" ∨ j.status = "refunded"

instance (j : Job) : Decidable (IsTerminal j) := by
  unfold IsTerminal; infer_instance

/-- Job states reachable through the constructor followed by committed
public calls.  Message senders are real account addresses, never the empty
sentinel, which the step rule records for `accept_job`. -/
inductive Reachable : Job → Prop
  | init (sender : Address) (value timestamp : Nat)
      (job_title requirements : String) (deadline_hours : Nat) (j : Job)
      (h : initJob sender value timestamp job_title requirements
        deadline_hours = .ok j) : Reachable j
  | step (env : Env) (c : Call) (j : Job) (h1 : Reachable j)
      (h2 : ∀ s, c = Call.acceptJob s → s ≠ "") :
      Reachable (stepCall env c j).job

/-- Sample open job used by concrete witnesses. -/
def sampleOpen : Job :=
  { client := "alice"
    freelancer := ""
    job_title := "Build a Landing Page"
    requirements := "Create a responsive landing page"
    payment_amount := 1000000
    submission_url := ""
    status := "open"
    created_at := 0
    deadline := 259200
    evaluation_result := "" }

/-- Sample submitted job used by concrete witnesses. -/
def sampleSubmitted : Job :=
  { sampleOpen with
    freelancer := "bob"
    submission_url := "https://github.com/example/landing-page"
    status := "submitted" }

/-- Sample completed (terminal) job used by concrete witnesses. -/
def sampleCompleted : Job :=
  { sampleSubmitted with status := "completed" }

/-- Sample environment where every transfer succeeds. -/
def envAllOk : Env :=
  { timestamp := 999999999
    transferOk := fun _ _ => true
    fetchResult := .ok "page content"
    judge := fun _ => "VERDICT: APPROVED" }

theorem eval_transfer_facts (tok : Address → Nat → Bool)
    (fr : Except String String) (jd : String → String) (j : Job) :
    ((evaluate_and_release tok fr jd j).transfers ≠ [] →
      exceptOk (evaluate_and_release tok fr jd j).result = true ∧
      IsTerminal (evaluate_and_release tok fr jd j).job) ∧
    (evaluate_and_release tok fr jd j).transfers.length ≤ 1 ∧
    (∀ p ∈ (evaluate_and_release tok fr jd j).transfers,
      p.2 = j.payment_amount) := by
  rcases fr with e | content
  all_goals simp only [evaluate_and_release]
  all_goals split_ifs
  all_goals simp_all [IsTerminal, exceptOk]

theorem rawCall_transfer_facts (env : Env) (c : Call) (j : Job) :
    ((rawCall env c j).transfers ≠ [] →
      (rawCall env c j).ok = true ∧ IsTerminal (rawCall env c j).job) ∧
    (rawCall env c j).transfers.length ≤ 1 ∧
    (∀ p ∈ (rawCall env c j).transfers, p.2 = j.payment_amount) := by
  cases c with
  | evaluateAndRelease => exact eval_transfer_facts env.transferOk env.fetchResult env.judge j
  | _ =>
    simp only [rawCall, toStepOut, accept_job, submit_work,
      withdraw_as_freelancer, cancel_job, claim_deadline_refund, precondFail]
    split_ifs
    all_goals simp_all [IsTerminal, exceptOk]

theorem eval_terminal_absorbing (tok : Address → Nat → Bool)
    (fr : Except String String) (jd : String → String) (j : Job)
    (h : IsTerminal j) :
    evaluate_and_release tok fr jd j =
      { job := j, transfers := [], judgeCalls := []
        result := .error "No submission to evaluate" } := by
  rcases h with h | h
  all_goals rcases fr with e | content
  all_goals simp_all [evaluate_and_release]

theorem rawCall_terminal_absorbing (env : Env) (c : Call) (j : Job)
    (h : IsTerminal j) :
    rawCall env c j = { job := j, transfers := [], ok := false } := by
  cases c with
  | evaluateAndRelease =>
    simp [rawCall,
      eval_terminal_absorbing env.transferOk env.fetchResult env.judge j h,
      exceptOk]
  | _ =>
    rcases h with h | h
    all_goals
      simp only [rawCall, toStepOut, accept_job, submit_work,
        withdraw_as_freelancer, cancel_job, claim_deadline_refund, precondFail]
    all_goals split_ifs
    all_goals simp_all [exceptOk]

theorem stepCall_terminal_absorbing (env : Env) (c : Call) (j : Job)
    (h : IsTerminal j) :
    stepCall env c j = { job := j, transfers := [], ok := false } := by
  simp [stepCall, rawCall_terminal_absorbing env c j h]

theorem runTrace_terminal (tr : List (Env × Call)) :
    ∀ j : Job, IsTerminal j → runTrace j tr = (j, 0) := by
  induction tr with
  | nil => intro j h; simp [runTrace]
  | cons ec rest ih =>
    intro j h
    simp [runTrace, stepCall_terminal_absorbing ec.1 ec.2 j h, ih j h]

theorem stepCall_transfer_facts (env : Env) (c : Call) (j : Job) :
    ((stepCall env c j).transfers ≠ [] →
      IsTerminal (stepCall env c j).job) ∧
    (stepCall env c j).transfers.length ≤ 1 ∧
    (∀ p ∈ (stepCall env c j).transfers, p.2 = j.payment_amount) := by
  have hr := rawCall_transfer_facts env c j
  rcases hok : (rawCall env c j).ok with _ | _
  · simp [stepCall, hok]
  · simp only [stepCall, hok, if_true]
    exact ⟨fun hne => (hr.1 hne).2, hr.2.1, hr.2.2⟩

theorem runTrace_at_most_one (tr : List (Env × Call)) :
    ∀ j : Job, (runTrace j tr).2 ≤ 1 := by
  induction tr with
  | nil => intro j; simp [runTrace]
  | cons ec rest ih =>
    intro j
    simp only [runTrace]
    rcases Decidable.em ((stepCall ec.1 ec.2 j).transfers = []) with h | h
    · simpa [h] using ih (stepCall ec.1 ec.2 j).job
    · have hterm := (stepCall_transfer_facts ec.1 ec.2 j).1 h
      have hlen := (stepCall_transfer_facts ec.1 ec.2 j).2.1
      have hrest := runTrace_terminal rest (stepCall ec.1 ec.2 j).job hterm
      simp [hrest]
      omega

/-- Sample in-progress job used by concrete witnesses. -/
def sampleInProgress : Job :=
  { sampleOpen with freelancer := "bob", status := "in_progress" }

/-- C8: the verdict-equivalence rule (equal extracted verdicts, with a
missing marker normalized to REJECTED inside `extract_verdict`) is symmetric
and reflexive on all judgment texts. -/
theorem C8_equivalence_symm_refl :
    (∀ a b : String, equivalence_principle a b = equivalence_principle b a) ∧
    (∀ a : String, equivalence_principle a a = true) := by
  constructor
  · intro a b
    unfold equivalence_principle
    by_cases h : extract_verdict a = extract_verdict b
    · simp [h]
    · have hba : ¬ extract_verdict b = extract_verdict a :=
        fun hh => h hh.symm
      simp [h, hba]
  · intro a
    simp [equivalence_principle]

/-- C9: `time_remaining` equals max(0, deadline - now), is antitone in the
clock and strictly decreasing while positive, floors at 0 from the deadline
on, and `is_deadline_passed` holds exactly when now > deadline. -/
theorem C9_time_remaining_monotone :
    ∀ (ts : Nat) (j : Job),
      ((time_remaining ts j : Int) = max 0 ((j.deadline : Int) - (ts : Int))) ∧
      (∀ ts2, ts < ts2 → time_remaining ts2 j ≤ time_remaining ts j) ∧
      (∀ ts2, ts < ts2 → 0 < time_remaining ts j →
        time_remaining ts2 j < time_remaining ts j) ∧
      (j.deadline ≤ ts → time_remaining ts j = 0) ∧
      (is_deadline_passed ts j = true ↔ j.deadline < ts) := by
  intro ts j
  refine ⟨?_, ?_, ?_, ?_, ?_⟩
  · unfold time_remaining
    rcases le_or_lt j.deadline ts with h | h
    · rw [if_pos h, max_eq_left (by omega : (j.deadline : Int) - (ts : Int) ≤ 0)]
      simp
    · rw [if_neg (by omega), max_eq_right
        (by omega : (0 : Int) ≤ (j.deadline : Int) - (ts : Int))]
      omega
  · intro ts2 hlt
    unfold time_remaining
    split_ifs <;> omega
  · intro ts2 hlt hpos
    unfold time_remaining at hpos ⊢
    split_ifs at hpos ⊢ <;> omega
  · intro h
    unfold time_remaining
    rw [if_pos h]
  · unfold is_deadline_passed
    simp [gt_iff_lt]

/-- Witness for C9 at a concrete clock and job. -/
theorem C9_witness :
    time_remaining 200 sampleOpen < time_remaining 100 sampleOpen ∧
    is_deadline_passed 259201 sampleOpen = true := by
  exact ⟨(C9_time_remaining_monotone 100 sampleOpen).2.2.1 200 (by decide)
      (by decide),
    (C9_time_remaining_monotone 259201 sampleOpen).2.2.2.2.mpr (by decide)⟩

/-- C10: neither `accept_job` nor `submit_work` reads the clock: an open job
can be accepted by any non-client caller, and an in-progress job can receive
a non-empty submission from its freelancer, even when the deadline already
passed. -/
theorem C10_no_deadline_check :
    ∀ (j : Job) (sender : Address) (url : String) (ts : Nat),
      (j.status = "open" → sender ≠ j.client → j.deadline < ts →
        (accept_job sender j).result = .ok () ∧
        (accept_job sender j).job.status = "in_progress" ∧
        (accept_job sender j).job.freelancer = sender) ∧
      (j.status = "in_progress" → sender = j.freelancer → url.length > 0 →
        j.deadline < ts →
        (submit_work sender url j).result = .ok () ∧
        (submit_work sender url j).job.status = "submitted" ∧
        (submit_work sender url j).job.submission_url = url) := by
  intro j sender url ts
  constructor
  · intro h1 h2 _
    simp [accept_job, h1, h2]
  · intro h1 h2 h3 _
    simp [submit_work, h1, h2, h3]

/-- Witness for C10 just past the deadline of the sample job. -/
theorem C10_witness :
    (accept_job "bob" sampleOpen).job.status = "in_progress" ∧
    (submit_work "bob" "https://x" sampleInProgress).job.status =
      "submitted" := by
  exact ⟨((C10_no_deadline_check sampleOpen "bob" "u" 300000).1 (by decide)
      (by decide) (by decide)).2.1,
    ((C10_no_deadline_check sampleInProgress "bob" "https://x" 300000).2
      (by decide) (by decide) (by decide) (by decide)).2.1⟩

/-- C2 counterexample: the judgment "VERDICT:APPROVED" contains no
case-insensitive occurrence of the spaced marker "VERDICT: APPROVED", yet the
extraction approves it (line 250 also accepts the unspaced variant), the job
ends completed and the freelancer is paid — refuting the claim as stated. -/
theorem C2_counterexample :
    pyContains (pyUpper "VERDICT:APPROVED") "VERDICT: APPROVED" = false ∧
    extract_verdict "VERDICT:APPROVED" = "APPROVED" ∧
    (evaluate_and_release (fun _ _ => true) (.ok "page content")
      (fun _ => "VERDICT:APPROVED") sampleSubmitted).job.status =
      "completed" ∧
    (evaluate_and_release (fun _ _ => true) (.ok "page content")
      (fun _ => "VERDICT:APPROVED") sampleSubmitted).transfers =
      [("bob", 1000000)] := by
  refine ⟨by decide, by decide, ?_, ?_⟩ <;> rfl

/-- C2 amended: default-deny holds for the markers the code actually
recognizes — any judgment text containing neither "VERDICT: APPROVED" nor
"VERDICT:APPROVED" case-insensitively extracts to REJECTED, never completes
the job, only ever pays the client, and (when the refund transfer succeeds)
ends refunded with the full amount sent to the client. -/
theorem C2_amended_default_deny :
    ∀ (j : Job) (content : String) (jd : String → String)
      (tok : Address → Nat → Bool),
      j.status = "submitted" →
      pyContains (pyUpper (jd (evaluation_prompt j content)))
        "VERDICT: APPROVED" = false →
      pyContains (pyUpper (jd (evaluation_prompt j content)))
        "VERDICT:APPROVED" = false →
      extract_verdict (jd (evaluation_prompt j content)) = "REJECTED" ∧
      (evaluate_and_release tok (.ok content) jd j).job.status ≠
        "completed" ∧
      (∀ p ∈ (evaluate_and_release tok (.ok content) jd j).transfers,
        p.1 = j.client) ∧
      (tok j.client j.payment_amount = true →
        (evaluate_and_release tok (.ok content) jd j).job.status =
          "refunded" ∧
        (evaluate_and_release tok (.ok content) jd j).transfers =
          [(j.client, j.payment_amount)]) := by
  intro j content jd tok hs h1 h2
  have hv : extract_verdict (jd (evaluation_prompt j content)) = "REJECTED" := by
    unfold extract_verdict
    simp [h1, h2]
  refine ⟨hv, ?_, ?_, ?_⟩
  · simp only [evaluate_and_release, hs, if_true, reduceIte, hv]
    split_ifs <;> simp_all
  · simp only [evaluate_and_release, hs, if_true, reduceIte, hv]
    split_ifs <;> simp_all
  · intro htok
    simp only [evaluate_and_release, hs, if_true, reduceIte, hv, htok]
    simp

/-- Witness for C2 amended: a plain rejection text refunds the sample job. -/
theorem C2_amended_witness :
    (evaluate_and_release (fun _ _ => true) (.ok "page content")
      (fun _ => "VERDICT: REJECTED missing features")
      sampleSubmitted).job.status = "refunded" := by
  exact ((C2_amended_default_deny sampleSubmitted "page content"
    (fun _ => "VERDICT: REJECTED missing features") (fun _ _ => true)
    (by decide) (by decide) (by decide)).2.2.2 (by decide)).1

/-- C4: on a fetch failure of the submission URL the judge is never invoked,
the failure text is recorded, the full amount goes back to the client, the
job ends refunded, and the structured result is
REJECTED / "URL inaccessible". -/
theorem C4_fetch_failure_refunds :
    ∀ (j : Job) (e : String) (jd : String → String)
      (tok : Address → Nat → Bool),
      j.status = "submitted" →
      tok j.client j.payment_amount = true →
      (evaluate_and_release tok (.error e) jd j).judgeCalls = [] ∧
      (evaluate_and_release tok (.error e) jd j).job.evaluation_result =
        "REJECTED: Could not access submission URL. Error: " ++ e ∧
      (evaluate_and_release tok (.error e) jd j).transfers =
        [(j.client, j.payment_amount)] ∧
      (evaluate_and_release tok (.error e) jd j).job.status = "refunded" ∧
      (evaluate_and_release tok (.error e) jd j).result =
        .ok { verdict := "REJECTED", reason := some "URL inaccessible"
              evaluation := none } := by
  intro j e jd tok hs htok
  simp [evaluate_and_release, hs, htok]

/-- Witness for C4 on the sample submitted job with a timeout. -/
theorem C4_witness :
    (evaluate_and_release (fun _ _ => true) (.error "timeout")
      (fun _ => "unused") sampleSubmitted).job.status = "refunded" ∧
    (evaluate_and_release (fun _ _ => true) (.error "timeout")
      (fun _ => "unused") sampleSubmitted).judgeCalls = [] := by
  have h := C4_fetch_failure_refunds sampleSubmitted "timeout"
    (fun _ => "unused") (fun _ _ => true) (by decide) (by decide)
  exact ⟨h.2.2.2.1, h.1⟩

/-- Markers accepted by the APPROVED branch of the extraction (line 250). -/
def approved_markers : List String := ["VERDICT: APPROVED", "VERDICT:APPROVED"]

/-- Markers accepted by the REJECTED branch of the extraction (line 252). -/
def rejected_markers : List String := ["VERDICT: REJECTED", "VERDICT:REJECTED"]

/-- Formalises the claim's words "the verdict of the marker that occurs first
in the text": scan the uppercased text left to right and report the verdict
of the first position where some marker starts.  This is the spec-side
definition, for comparison with the source-side `extract_verdict`. -/
def first_marker_verdict : List Char → Option String
  | [] => none
  | c :: rest =>
      if approved_markers.any (fun m => m.data.isPrefixOf (c :: rest)) then
        some "APPROVED"
      else if rejected_markers.any (fun m => m.data.isPrefixOf (c :: rest)) then
        some "REJECTED"
      else first_marker_verdict rest

/-- C6 counterexample: a text whose first marker is a rejection, followed by
an approval marker, extracts to APPROVED — the extraction does not follow
"first unambiguous match wins", it checks the APPROVED branch first. -/
theorem C6_counterexample :
    pyContains (pyUpper "VERDICT: REJECTED. Example: VERDICT: APPROVED.")
      "VERDICT: APPROVED" = true ∧
    pyContains (pyUpper "VERDICT: REJECTED. Example: VERDICT: APPROVED.")
      "VERDICT: REJECTED" = true ∧
    first_marker_verdict
      (pyUpper "VERDICT: REJECTED. Example: VERDICT: APPROVED.").data =
      some "REJECTED" ∧
    extract_verdict "VERDICT: REJECTED. Example: VERDICT: APPROVED." =
      "APPROVED" := by
  refine ⟨by decide, by decide, by decide, by decide⟩

/-- C6 amended: when a judgment text contains both an approval and a
rejection marker, the extraction yields APPROVED regardless of which marker
occurs first, because the approval branch of the conditional is tested
first. -/
theorem C6_amended_approved_branch_first :
    ∀ t : String,
      (pyContains (pyUpper t) "VERDICT: APPROVED" = true ∨
        pyContains (pyUpper t) "VERDICT:APPROVED" = true) →
      (pyContains (pyUpper t) "VERDICT: REJECTED" = true ∨
        pyContains (pyUpper t) "VERDICT:REJECTED" = true) →
      extract_verdict t = "APPROVED" := by
  intro t h1 _
  unfold extract_verdict
  rcases h1 with h | h <;> simp [h]

/-- Witness for C6 amended on a text carrying both unspaced markers. -/
theorem C6_amended_witness :
    extract_verdict "VERDICT:REJECTED then VERDICT:APPROVED" = "APPROVED" :=
  C6_amended_approved_branch_first "VERDICT:REJECTED then VERDICT:APPROVED"
    (Or.inr (by decide)) (Or.inr (by decide))

/-- C1: the disbursement gateway moves funds at most once per job lifetime:
every committed call that transfers ends in a terminal status and transfers
only the full payment_amount; a second `evaluate_and_release` on an
already-terminal job fails its status assert, moves no funds and changes
nothing; and any sequence of committed calls performs at most one fund-moving
transfer in total. -/
theorem C1_disbursement_at_most_once :
    (∀ (env : Env) (c : Call) (j : Job),
      (stepCall env c j).transfers ≠ [] →
        IsTerminal (stepCall env c j).job ∧
        ∀ p ∈ (stepCall env c j).transfers, p.2 = j.payment_amount) ∧
    (∀ (j : Job) (tok : Address → Nat → Bool) (fr : Except String String)
      (jd : String → String), IsTerminal j →
        (evaluate_and_release tok fr jd j).result =
          .error "No submission to evaluate" ∧
        (evaluate_and_release tok fr jd j).transfers = [] ∧
        (evaluate_and_release tok fr jd j).job = j) ∧
    (∀ (j : Job) (tr : List (Env × Call)), (runTrace j tr).2 ≤ 1) := by
  refine ⟨?_, ?_, ?_⟩
  · intro env c j hne
    exact ⟨(stepCall_transfer_facts env c j).1 hne,
      (stepCall_transfer_facts env c j).2.2⟩
  · intro j tok fr jd h
    rw [eval_terminal_absorbing tok fr jd j h]
    exact ⟨rfl, rfl, rfl⟩
  · intro j tr
    exact runTrace_at_most_one tr j

/-- Witness for C1: an approved evaluation of the sample submitted job pays
out and is terminal; a repeat on the completed job moves nothing; a one-call
trace transfers at most once. -/
theorem C1_witness :
    IsTerminal (stepCall envAllOk Call.evaluateAndRelease sampleSubmitted).job ∧
    (evaluate_and_release envAllOk.transferOk envAllOk.fetchResult
      envAllOk.judge sampleCompleted).transfers = [] ∧
    (runTrace sampleOpen [(envAllOk, Call.cancelJob "alice")]).2 ≤ 1 := by
  refine ⟨(C1_disbursement_at_most_once.1 envAllOk Call.evaluateAndRelease
      sampleSubmitted (by decide)).1,
    (C1_disbursement_at_most_once.2.1 sampleCompleted envAllOk.transferOk
      envAllOk.fetchResult envAllOk.judge (by decide)).2.1,
    C1_disbursement_at_most_once.2.2 sampleOpen
      [(envAllOk, Call.cancelJob "alice")]⟩

/-- C3: "completed" and "refunded" are terminal — on such a job every public
mutating operation raises, leaves the job unchanged, moves no funds, and no
later trace of committed calls ever changes the job. -/
theorem C3_terminal_states_absorbing :
    ∀ j : Job, IsTerminal j →
      ∀ (sender : Address) (url : String) (timestamp : Nat)
        (tok : Address → Nat → Bool) (fr : Except String String)
        (jd : String → String),
      (exceptOk (accept_job sender j).result = false ∧
        (accept_job sender j).job = j ∧
        (accept_job sender j).transfers = []) ∧
      (exceptOk (submit_work sender url j).result = false ∧
        (submit_work sender url j).job = j ∧
        (submit_work sender url j).transfers = []) ∧
      (exceptOk (withdraw_as_freelancer sender j).result = false ∧
        (withdraw_as_freelancer sender j).job = j ∧
        (withdraw_as_freelancer sender j).transfers = []) ∧
      (exceptOk (cancel_job tok sender j).result = false ∧
        (cancel_job tok sender j).job = j ∧
        (cancel_job tok sender j).transfers = []) ∧
      (exceptOk (claim_deadline_refund tok sender timestamp j).result = false ∧
        (claim_deadline_refund tok sender timestamp j).job = j ∧
        (claim_deadline_refund tok sender timestamp j).transfers = []) ∧
      (exceptOk (evaluate_and_release tok fr jd j).result = false ∧
        (evaluate_and_release tok fr jd j).job = j ∧
        (evaluate_and_release tok fr jd j).transfers = []) ∧
      (∀ tr : List (Env × Call), (runTrace j tr).1 = j) := by
  intro j h sender url ts tok fr jd
  have henv := fun c => rawCall_terminal_absorbing ⟨ts, tok, fr, jd⟩ c j h
  refine ⟨?_, ?_, ?_, ?_, ?_, ?_, ?_⟩
  · have h1 := henv (Call.acceptJob sender)
    exact ⟨congrArg StepOut.ok h1, congrArg StepOut.job h1,
      congrArg StepOut.transfers h1⟩
  · have h1 := henv (Call.submitWork sender url)
    exact ⟨congrArg StepOut.ok h1, congrArg StepOut.job h1,
      congrArg StepOut.transfers h1⟩
  · have h1 := henv (Call.withdrawAsFreelancer sender)
    exact ⟨congrArg StepOut.ok h1, congrArg StepOut.job h1,
      congrArg StepOut.transfers h1⟩
  · have h1 := henv (Call.cancelJob sender)
    exact ⟨congrArg StepOut.ok h1, congrArg StepOut.job h1,
      congrArg StepOut.transfers h1⟩
  · have h1 := henv (Call.claimDeadlineRefund sender)
    exact ⟨congrArg StepOut.ok h1, congrArg StepOut.job h1,
      congrArg StepOut.transfers h1⟩
  · rw [eval_terminal_absorbing tok fr jd j h]
    exact ⟨rfl, rfl, rfl⟩
  · intro tr
    exact congrArg Prod.fst (runTrace_terminal tr j h)

/-- Witness for C3 on the sample completed job. -/
theorem C3_witness :
    exceptOk (accept_job "carol" sampleCompleted).result = false ∧
    (accept_job "carol" sampleCompleted).job = sampleCompleted ∧
    (cancel_job (fun _ _ => true) "alice" sampleCompleted).job =
      sampleCompleted := by
  have h := C3_terminal_states_absorbing sampleCompleted (by decide) "carol"
    "https://x" 300000 (fun _ _ => true) (.ok "x") (fun _ => "y")
  exact ⟨h.1.1, h.1.2.1, h.2.2.2.1.2.1⟩

/-- C5: failure atomicity of committed execution — when a public operation
fails (violated precondition or transfer failure), the committed job state
is exactly the pre-call state and no funds move.  The commit semantics of
`stepCall` models the transactional rollback the GenLayer host guarantees
(spec sections 5 and 7). -/
theorem C5_failure_atomicity :
    ∀ (env : Env) (c : Call) (j : Job),
      (stepCall env c j).ok = false →
        (stepCall env c j).job = j ∧ (stepCall env c j).transfers = [] := by
  intro env c j h
  cases hok : (rawCall env c j).ok with
  | false => simp [stepCall, hok]
  | true =>
    have hTrue : (stepCall env c j).ok = true := by
      simp [stepCall, hok]
    rw [h] at hTrue
    exact absurd hTrue (by simp)

/-- Witness for C5: the sample evaluation whose payout transfer fails leaves
the submitted job untouched, even though the raw execution had already
written the evaluation text. -/
theorem C5_witness :
    (stepCall { envAllOk with transferOk := fun _ _ => false }
      Call.evaluateAndRelease sampleSubmitted).job = sampleSubmitted := by
  exact (C5_failure_atomicity { envAllOk with transferOk := fun _ _ => false }
    Call.evaluateAndRelease sampleSubmitted (by decide)).1

/-- Relation between the freelancer sentinel and the status that actually
holds in every reachable state: open implies unset, and unset implies open
or refunded (a cancel or deadline refund of a never-accepted job reaches
"refunded" with the freelancer still unset). -/
def FreelancerStatusInv (j : Job) : Prop :=
  (j.status = "open" → j.freelancer = "") ∧
  (j.freelancer = "" → j.status = "open" ∨ j.status = "refunded")

theorem rawCall_inv_preserved (env : Env) (c : Call) (j : Job)
    (hinv : FreelancerStatusInv j)
    (hs : ∀ s, c = Call.acceptJob s → s ≠ "")
    (hok : (rawCall env c j).ok = true) :
    FreelancerStatusInv (rawCall env c j).job := by
  obtain ⟨h1, h2⟩ := hinv
  cases c with
  | acceptJob s =>
    have hsne : s ≠ "" := hs s rfl
    simp only [rawCall, toStepOut, accept_job, precondFail] at hok ⊢
    split_ifs at hok ⊢
    all_goals simp_all [FreelancerStatusInv, exceptOk]
  | submitWork s url =>
    simp only [rawCall, toStepOut, submit_work, precondFail] at hok ⊢
    split_ifs at hok ⊢
    all_goals simp_all [FreelancerStatusInv, exceptOk]
  | withdrawAsFreelancer s =>
    simp only [rawCall, toStepOut, withdraw_as_freelancer, precondFail]
      at hok ⊢
    split_ifs at hok ⊢
    all_goals simp_all [FreelancerStatusInv, exceptOk]
  | cancelJob s =>
    simp only [rawCall, toStepOut, cancel_job, precondFail] at hok ⊢
    split_ifs at hok ⊢
    all_goals simp_all [FreelancerStatusInv, exceptOk]
  | claimDeadlineRefund s =>
    simp only [rawCall, toStepOut, claim_deadline_refund, precondFail]
      at hok ⊢
    split_ifs at hok ⊢
    all_goals simp_all [FreelancerStatusInv, exceptOk]
  | evaluateAndRelease =>
    rcases hf : env.fetchResult with e | content
    all_goals simp only [rawCall, evaluate_and_release, hf] at hok ⊢
    all_goals split_ifs at hok ⊢
    all_goals simp_all [FreelancerStatusInv, exceptOk]

theorem stepCall_inv_preserved (env : Env) (c : Call) (j : Job)
    (hinv : FreelancerStatusInv j)
    (hs : ∀ s, c = Call.acceptJob s → s ≠ "") :
    FreelancerStatusInv (stepCall env c j).job := by
  cases hok : (rawCall env c j).ok with
  | false => simpa [stepCall, hok] using hinv
  | true =>
    simp only [stepCall, hok, if_true]
    exact rawCall_inv_preserved env c j hinv hs hok

/-- Initial job of the C7 counterexample (a freshly constructed open job). -/
def cexJob0 : Job :=
  { client := "alice"
    freelancer := ""
    job_title := "t"
    requirements := "r"
    payment_amount := 1000
    submission_url := ""
    status := "open"
    created_at := 0
    deadline := 3600
    evaluation_result := "" }

/-- Reachable job of the C7 counterexample: the client cancels the fresh
job, reaching "refunded" with the freelancer still unset. -/
def cexJob1 : Job := (stepCall envAllOk (Call.cancelJob "alice") cexJob0).job

/-- C7 counterexample: a reachable job (construct, then the client cancels)
whose freelancer is unset while its status is "refunded", not "open" — so
"unset iff open" fails on reachable states. -/
theorem C7_counterexample :
    Reachable cexJob1 ∧ cexJob1.freelancer = "" ∧
    cexJob1.status = "refunded" ∧ cexJob1.status ≠ "open" := by
  refine ⟨?_, by decide, by decide, by decide⟩
  have h0 : Reachable cexJob0 :=
    Reachable.init "alice" 1000 0 "t" "r" 1 cexJob0 rfl
  exact Reachable.step envAllOk (Call.cancelJob "alice") cexJob0 h0
    (fun s hs => Call.noConfusion hs)

/-- C7 amended: in every reachable state, an open status forces the
freelancer to be unset, and an unset freelancer forces the status to be
"open" or "refunded" (the latter via cancellation or a deadline refund of a
never-accepted job); equivalently, in the statuses "in_progress",
"submitted" and "completed" the freelancer is always set. -/
theorem C7_amended_freelancer_invariant :
    ∀ j : Job, Reachable j → FreelancerStatusInv j := by
  intro j hr
  induction hr with
  | init sender value ts jt rq dh j h =>
    unfold initJob at h
    split_ifs at h
    all_goals first
    | exact Except.noConfusion h
    | (injection h with h
       subst h
       exact ⟨fun _ => rfl, fun _ => Or.inl rfl⟩)
  | step env c j h1 h2 ih =>
    exact stepCall_inv_preserved env c j ih h2

/-- Witness for C7 amended at the freshly constructed counterexample job. -/
theorem C7_amended_witness : cexJob0.freelancer = "" := by
  exact (C7_amended_freelancer_invariant cexJob0
    (Reachable.init "alice" 1000 0 "t" "r" 1 cexJob0 rfl)).1 (by decide)
